import Mathlib

/-! Shallow embedding of `src/dags/user_processing.py`: a linear Airflow DAG
(sensor is_api_available → extract_user → process_user → store_user →
validate_data) over a JSON payload, a CSV intermediate artifact and a `users`
table with `ON CONFLICT (id) DO NOTHING` inserts. Python values passed between
tasks are modelled by `Json`; absence of an upstream XCom result (Python
`None`, or an `xcom_pull` failure, both handled identically by the bare
`except` blocks of the source) is modelled by `Option.none`. -/

namespace UserProcessing

/-- JSON-like Python values as they flow through the DAG. -/
inductive Json where
  | null : Json
  | num : Int → Json
  | str : String → Json
  | obj : List (String × Json) → Json

/-- Python `d[k]` on a dict; `none` stands for the `KeyError` (or `TypeError`
on a non-dict), which the caller reports. -/
def Json.getField : Json → String → Option Json
  | Json.obj fields, k => fields.lookup k
  | _, _ => none

/-- Python truthiness: `None`, `0`, the empty string and the empty dict are
falsy. -/
def Json.isFalsy : Json → Bool
  | Json.null => true
  | Json.num n => n == 0
  | Json.str s => s.isEmpty
  | Json.obj fields => fields.isEmpty

mutual

/-- Python `str`/`repr` of a dict value as the csv module would render it
(repr quote-escaping inside strings is approximated; the pipeline only ever
writes flat string/number cells). -/
def Json.pyRepr : Json → String
  | Json.null => "None"
  | Json.num n => toString n
  | Json.str s => "\x27" ++ s ++ "\x27"
  | Json.obj fields => "\x7b" ++ Json.pyReprFields fields ++ "\x7d"

/-- Comma-separated `\x27key\x27: repr(value)` entries of a dict. -/
def Json.pyReprFields : List (String × Json) → String
  | [] => ""
  | [(k, v)] => "\x27" ++ k ++ "\x27: " ++ Json.pyRepr v
  | (k, v) :: rest =>
      "\x27" ++ k ++ "\x27: " ++ Json.pyRepr v ++ ", " ++ Json.pyReprFields rest

end

/-- How the Python csv writer renders one cell: `None` becomes the empty
string, every other value goes through `str`. -/
def Json.toCsvField : Json → String
  | Json.null => ""
  | Json.num n => toString n
  | Json.str s => s
  | Json.obj fields => Json.pyRepr (Json.obj fields)

/-- QUOTE_MINIMAL: a cell is quoted iff it contains the delimiter, the quote
character or a line-terminator character. -/
def csvNeedsQuote (s : String) : Bool :=
  s.data.any fun c => c == ',' || c == '"' || c == '\r' || c == '\n'

/-- Double every quote character inside a quoted cell. -/
def csvEscape (s : String) : String :=
  String.mk (s.data.foldl (fun acc c => if c == '"' then acc ++ ['"', '"'] else acc ++ [c]) [])

/-- Render one cell under QUOTE_MINIMAL. -/
def csvQuote (s : String) : String :=
  if csvNeedsQuote s then "\"" ++ csvEscape s ++ "\"" else s

/-- One CSV line as `csv.writer` emits it (default line terminator CRLF). -/
def csvLine (cells : List String) : String :=
  String.intercalate "," (cells.map csvQuote) ++ "\r\n"

/-- Byte-level content of an artifact: header line, then data lines. -/
def renderCsv (artifact : List (List String)) : String :=
  String.join (artifact.map csvLine)

/-- Result of one poke of the availability sensor. -/
structure PokeReturnValue where
  is_done : Bool
  xcom_value : Option Json

/-- Task 2, one poke of `is_api_available`. `response` is the outcome of the
HTTP GET of the dataset: `error` for a raised exception (network failure or a
body that fails to decode), `ok` for a status code with the decoded JSON
body. A non-200 status or an exception yields a not-done poke with no
payload. -/
def is_api_available (response : Except String (Nat × Json)) : PokeReturnValue :=
  match response with
  | Except.ok (status_code, body) =>
      if status_code == 200 then { is_done := true, xcom_value := some body }
      else { is_done := false, xcom_value := none }
  | Except.error _ => { is_done := false, xcom_value := none }

/-- `poke_interval=10` (seconds) from the sensor decorator. -/
def poke_interval : Nat := 10

/-- `timeout=300` (seconds) from the sensor decorator. -/
def sensor_timeout : Nat := 300

/-- Outcome of the sensor stage: ready at a tick time with the poked payload,
or the ReadinessTimeout failure at a tick time. -/
inductive SensorOutcome where
  | ready : Nat → Option Json → SensorOutcome
  | readinessTimeout : Nat → SensorOutcome

/-- Modelled from the spec: the polling loop around `is_api_available` lives
in the scheduler framework, not in `src/` (the source only sets
`poke_interval=10, timeout=300`). Per the spec the loop re-invokes the probe,
sleeping `poke_interval` between ticks (so `probe t` is the poke at elapsed
time `t`), and fails with ReadinessTimeout once the elapsed time exceeds the
timeout with no success. The fuel argument only bounds recursion depth; with
fuel `sensor_timeout + 2` it is never exhausted before the timeout check
fires. -/
def sensorLoopAux (probe : Nat → PokeReturnValue) : Nat → Nat → SensorOutcome
  | 0, t => SensorOutcome.readinessTimeout t
  | fuel + 1, t =>
      if (probe t).is_done then SensorOutcome.ready t (probe t).xcom_value
      else if sensor_timeout < t then SensorOutcome.readinessTimeout t
      else sensorLoopAux probe fuel (t + poke_interval)

/-- Modelled from the spec: run the polling loop from elapsed time zero. -/
def sensorLoop (probe : Nat → PokeReturnValue) : SensorOutcome :=
  sensorLoopAux probe (sensor_timeout + 2) 0

/-- The canonical record produced by `extract_user`: a four-key Python dict
in insertion order id, firstname, lastname, email. -/
structure CanonicalUser where
  id : Json
  firstname : Json
  lastname : Json
  email : Json

/-- Task 3, `extract_user`. `pulled` is the XCom value from the sensor
(`none` for Python `None` or a failing lookup, both caught by the bare
`except`, which then fetches directly); `direct_fetch` is the JSON body a
direct GET of the dataset returns. The key lookups happen after the
try/except, so a missing key escapes as a KeyError (the spec calls this
SchemaMismatch); `personalInfo` is re-indexed for each of the three nested
fields, as in the source. -/
def extract_user (pulled : Option Json) (direct_fetch : Json) :
    Except String CanonicalUser :=
  let fake_user := match pulled with
    | some v => v
    | none => direct_fetch
  match fake_user.getField "id" with
  | none => Except.error "KeyError: id"
  | some idv =>
    match fake_user.getField "personalInfo" with
    | none => Except.error "KeyError: personalInfo"
    | some pi1 =>
      match pi1.getField "firstName" with
      | none => Except.error "KeyError: firstName"
      | some fn =>
        match fake_user.getField "personalInfo" with
        | none => Except.error "KeyError: personalInfo"
        | some pi2 =>
          match pi2.getField "lastName" with
          | none => Except.error "KeyError: lastName"
          | some ln =>
            match fake_user.getField "personalInfo" with
            | none => Except.error "KeyError: personalInfo"
            | some pi3 =>
              match pi3.getField "email" with
              | none => Except.error "KeyError: email"
              | some em =>
                  Except.ok { id := idv, firstname := fn, lastname := ln, email := em }

/-- The fallback sample record in `process_user` (all values are Python
strings in the source, including the id). -/
def process_fallback_user : CanonicalUser :=
  { id := Json.str "12345", firstname := Json.str "John",
    lastname := Json.str "Doe", email := Json.str "john.doe@example.com" }

/-- Field order of the artifact, `user_info.keys()`. -/
def csv_fieldnames : List String := ["id", "firstname", "lastname", "email"]

/-- The fixed artifact path used by both `process_user` and `store_user`. -/
def csv_file_path : String := "/tmp/user_info.csv"

/-- The single data row `writer.writerow(user_info)` emits for a record. -/
def userRow (u : CanonicalUser) : List String :=
  [u.id.toCsvField, u.firstname.toCsvField, u.lastname.toCsvField, u.email.toCsvField]

/-- Task 4, `process_user`: substitute the sample record when the upstream
XCom is absent, then (over)write the header plus one data row at the fixed
path. Returns the path (the task's XCom) together with the artifact rows
written there. -/
def process_user (pulled : Option CanonicalUser) : String × List (List String) :=
  let user_info := match pulled with
    | some u => u
    | none => process_fallback_user
  (csv_file_path, [csv_fieldnames, userRow user_info])

/-- Parameters bound into the INSERT statement for one csv row. -/
structure InsertParams where
  id : Int
  firstname : String
  lastname : String
  email : String
  deriving DecidableEq

/-- One stored row of the `users` table; `created_at` is the insert-time
default timestamp. -/
structure DbRow where
  id : Int
  firstname : String
  lastname : String
  email : String
  created_at : Nat
  deriving DecidableEq

/-- The `users` table contents. -/
abbrev UsersTable := List DbRow

/-- `INSERT ... ON CONFLICT (id) DO NOTHING`: append unless the id already
exists (first write wins). -/
def insertRow (t : UsersTable) (now : Nat) (p : InsertParams) : UsersTable :=
  if t.any fun r => r.id == p.id then t
  else t ++ [{ id := p.id, firstname := p.firstname, lastname := p.lastname,
               email := p.email, created_at := now }]

/-- Numeric value of an ASCII digit. -/
def digitVal (c : Char) : Option Nat :=
  if '0' ≤ c ∧ c ≤ '9' then some (c.toNat - 48) else none

/-- Accumulate decimal digits left to right; any non-digit fails. -/
def parseNatAux : List Char → Nat → Option Nat
  | [], acc => some acc
  | c :: rest, acc =>
      match digitVal c with
      | none => none
      | some d => parseNatAux rest (acc * 10 + d)

/-- How the INT column casts a textual parameter: an optional minus sign
followed by at least one decimal digit (surrounding whitespace and an
explicit plus sign, which the store would also accept, are not modelled —
the pipeline never produces them). -/
def strToInt (s : String) : Option Int :=
  match s.data with
  | [] => none
  | c :: rest =>
      if c = '-' then
        match rest with
        | [] => none
        | _ => (parseNatAux rest 0).map fun n => -(Int.ofNat n)
      else (parseNatAux (c :: rest) 0).map Int.ofNat

/-- Bind one `csv.DictReader` row (the header zipped with the cells) into the
INSERT parameters: a missing parameter key, or an id cell the INT column
cannot parse, makes the statement raise (PersistenceError). -/
def rowParams (header row : List String) : Option InsertParams :=
  let assoc := header.zip row
  match assoc.lookup "id" with
  | none => none
  | some idS =>
    match strToInt idS with
    | none => none
    | some idN =>
      match assoc.lookup "firstname", assoc.lookup "lastname", assoc.lookup "email" with
      | some fn, some ln, some em =>
          some { id := idN, firstname := fn, lastname := ln, email := em }
      | _, _, _ => none

/-- The per-row loop of `store_user`: one INSERT per data row, left to
right; the first failing statement aborts the task. -/
def storeLoop (header : List String) (now : Nat) :
    List (List String) → UsersTable → Except String UsersTable
  | [], t => Except.ok t
  | row :: rest, t =>
      match rowParams header row with
      | none => Except.error "PersistenceError"
      | some p => storeLoop header now rest (insertRow t now p)

/-- Read an artifact with `csv.DictReader` (first row is the header, an empty
file yields no rows) and run the insert loop over the data rows. -/
def storeArtifact (artifact : List (List String)) (now : Nat) (t : UsersTable) :
    Except String UsersTable :=
  match artifact with
  | [] => Except.ok t
  | header :: rows => storeLoop header now rows t

/-- Contents of the durable store, by path. -/
abbrev FileSystem := String → Option (List (List String))

/-- The fallback `sample_data` dict in `store_user` (the same literal as in
`process_user`, duplicated in the source). -/
def store_sample_user : CanonicalUser :=
  { id := Json.str "12345", firstname := Json.str "John",
    lastname := Json.str "Doe", email := Json.str "john.doe@example.com" }

/-- Task 5, `store_user`: when the upstream path is absent, first re-create
the placeholder artifact at the fixed path; then open the path and insert
every row found there. Returns the file system after the task together with
the table the insert loop produced (or its error). -/
def store_user (pulled : Option String) (fs : FileSystem) (now : Nat)
    (t : UsersTable) : FileSystem × Except String UsersTable :=
  match pulled with
  | some p =>
      (fs,
       match fs p with
       | none => Except.error "PersistenceError"
       | some artifact => storeArtifact artifact now t)
  | none =>
      let sampleArtifact := [csv_fieldnames, userRow store_sample_user]
      let fs' : FileSystem := fun q => if q = csv_file_path then some sampleArtifact else fs q
      (fs',
       match fs' csv_file_path with
       | none => Except.error "PersistenceError"
       | some artifact => storeArtifact artifact now t)

/-- Transform then store within one run: `process_user` writes the artifact,
its path is the XCom that `store_user` pulls, and the file system holds
exactly what was written. -/
def run_transform_store (u : CanonicalUser) (now : Nat) (t : UsersTable) :
    Except String UsersTable :=
  let (path, artifact) := process_user (some u)
  let fs : FileSystem := fun q => if q = path then some artifact else none
  (store_user (some path) fs now t).2

/-- The report `validate_data` returns. -/
structure ValidationReport where
  total_users : Int
  latest_user : Option String
  validation_status : String
  deriving DecidableEq

/-- `SELECT COUNT(ANY) FROM users`: always one value, the row count. -/
def countQuery (t : UsersTable) : Option Int :=
  some (Int.ofNat t.length)

/-- `SELECT ... FROM users ORDER BY created_at DESC LIMIT 1`: a most recently
created row, or nothing on an empty table. -/
def latestQuery (t : UsersTable) : Option DbRow :=
  t.foldl (fun acc r =>
    match acc with
    | none => some r
    | some m => if m.created_at < r.created_at then some r else some m) none

/-- Task 6, `validate_data`: the two query outcomes are given (`error` models
the hook raising). The single try/except re-raises any failure unchanged;
otherwise the report is assembled with status SUCCESS, a missing count row
counted as zero and the latest user taken from the email column. -/
def validate_data (countRes : Except String (Option Int))
    (latestRes : Except String (Option DbRow)) : Except String ValidationReport :=
  match countRes with
  | Except.error e => Except.error e
  | Except.ok result =>
    let total_count := match result with
      | some c => c
      | none => 0
    match latestRes with
    | Except.error e => Except.error e
    | Except.ok latest_record =>
        Except.ok { total_users := total_count,
                    latest_user := latest_record.map fun r => r.email,
                    validation_status := "SUCCESS" }

/-- Scenario A payload from the spec: id 7, Ann Lee. -/
def scenarioA_payload : Json :=
  Json.obj [("id", Json.num 7),
            ("personalInfo", Json.obj [("firstName", Json.str "Ann"),
                                       ("lastName", Json.str "Lee"),
                                       ("email", Json.str "ann@x.com")])]

/-- Ids currently present in the table (the set the `ON CONFLICT` guard
consults). -/
def hasId (t : UsersTable) (i : Int) : Bool :=
  t.any fun r => r.id == i

/-- The id column of the table, in row order. -/
def tableIds (t : UsersTable) : List Int :=
  t.map fun r => r.id

theorem insertRow_hasId_self (t : UsersTable) (now : Nat) (p : InsertParams) :
    hasId (insertRow t now p) p.id = true := by
  unfold insertRow hasId
  split
  · assumption
  · simp [List.any_append]

theorem insertRow_hasId_mono (t : UsersTable) (now : Nat) (p : InsertParams)
    (i : Int) (h : hasId t i = true) : hasId (insertRow t now p) i = true := by
  unfold insertRow
  split
  · exact h
  · unfold hasId at h ⊢
    simp [List.any_append]
    simp at h
    exact Or.inl h

theorem insertRow_of_hasId (t : UsersTable) (now : Nat) (p : InsertParams)
    (h : hasId t p.id = true) : insertRow t now p = t := by
  unfold hasId at h
  unfold insertRow
  simp [h]

theorem storeLoop_hasId_mono (header : List String) (now : Nat) (i : Int)
    (rows : List (List String)) :
    ∀ t t' : UsersTable, hasId t i = true →
      storeLoop header now rows t = Except.ok t' → hasId t' i = true := by
  induction rows with
  | nil =>
    intro t t' h hrun
    simp [storeLoop] at hrun
    exact hrun ▸ h
  | cons row rest ih =>
    intro t t' h hrun
    unfold storeLoop at hrun
    cases hp : rowParams header row with
    | none => rw [hp] at hrun; cases hrun
    | some p =>
      rw [hp] at hrun
      exact ih _ _ (insertRow_hasId_mono _ _ _ _ h) hrun

theorem storeLoop_idem (header : List String) (n1 n2 : Nat)
    (rows : List (List String)) :
    ∀ t t' : UsersTable,
      storeLoop header n1 rows t = Except.ok t' →
      storeLoop header n2 rows t' = Except.ok t' := by
  induction rows with
  | nil =>
    intro t t' hrun
    simp [storeLoop] at hrun ⊢
  | cons row rest ih =>
    intro t t' hrun
    unfold storeLoop at hrun ⊢
    cases hp : rowParams header row with
    | none => rw [hp] at hrun; cases hrun
    | some p =>
      rw [hp] at hrun
      have hid : hasId t' p.id = true :=
        storeLoop_hasId_mono header n1 p.id rest _ _ (insertRow_hasId_self t n1 p) hrun
      show storeLoop header n2 rest (insertRow t' n2 p) = Except.ok t'
      rw [insertRow_of_hasId t' n2 p hid]
      exact ih _ _ hrun

theorem insertRow_nodup (t : UsersTable) (now : Nat) (p : InsertParams)
    (h : (tableIds t).Nodup) : (tableIds (insertRow t now p)).Nodup := by
  unfold insertRow
  split
  · exact h
  · next hnot =>
    unfold tableIds at h ⊢
    simp [List.nodup_append, h]
    intro r hr
    simp at hnot
    exact hnot r hr

theorem storeLoop_nodup (header : List String) (now : Nat)
    (rows : List (List String)) :
    ∀ t t' : UsersTable, (tableIds t).Nodup →
      storeLoop header now rows t = Except.ok t' → (tableIds t').Nodup := by
  induction rows with
  | nil =>
    intro t t' h hrun
    simp [storeLoop] at hrun
    exact hrun ▸ h
  | cons row rest ih =>
    intro t t' h hrun
    unfold storeLoop at hrun
    cases hp : rowParams header row with
    | none => rw [hp] at hrun; cases hrun
    | some p =>
      rw [hp] at hrun
      exact ih _ _ (insertRow_nodup _ _ _ h) hrun

theorem storeArtifact_idem (artifact : List (List String)) (n1 n2 : Nat)
    (t t' : UsersTable) (h : storeArtifact artifact n1 t = Except.ok t') :
    storeArtifact artifact n2 t' = Except.ok t' := by
  cases artifact with
  | nil => simp [storeArtifact]
  | cons header rows => exact storeLoop_idem header n1 n2 rows t t' h

theorem storeArtifact_nodup (artifact : List (List String)) (now : Nat)
    (t t' : UsersTable) (hnd : (tableIds t).Nodup)
    (h : storeArtifact artifact now t = Except.ok t') : (tableIds t').Nodup := by
  cases artifact with
  | nil =>
    simp [storeArtifact] at h
    exact h ▸ hnd
  | cons header rows => exact storeLoop_nodup header now rows t t' hnd h

theorem rowParams_canonical (a b c d : String) :
    rowParams csv_fieldnames [a, b, c, d] =
      (strToInt a).map fun i => { id := i, firstname := b, lastname := c, email := d } := by
  unfold rowParams
  cases h : strToInt a <;> simp [csv_fieldnames, h, List.lookup]

theorem run_transform_store_eval (u : CanonicalUser) (i : Int) (now : Nat)
    (t : UsersTable) (hparse : strToInt u.id.toCsvField = some i) :
    run_transform_store u now t =
      Except.ok (insertRow t now
        { id := i, firstname := u.firstname.toCsvField,
          lastname := u.lastname.toCsvField, email := u.email.toCsvField }) := by
  have h1 : run_transform_store u now t =
      match rowParams csv_fieldnames (userRow u) with
      | none => Except.error "PersistenceError"
      | some p => storeLoop csv_fieldnames now [] (insertRow t now p) := by
    show (store_user (some csv_file_path)
        (fun q => if q = csv_file_path then some [csv_fieldnames, userRow u] else none)
        now t).2 = _
    simp [store_user, storeArtifact, storeLoop]
  rw [h1, show userRow u = [u.id.toCsvField, u.firstname.toCsvField,
        u.lastname.toCsvField, u.email.toCsvField] from rfl,
      rowParams_canonical, hparse]
  rfl

/-- C1: in every run where the external resource returns a well-formed
payload (whether the extraction stage pulls it from the sensor XCom or
re-fetches it directly on absence), the extraction stage returns the
canonical record with id, firstname, lastname and email mapped from the
payload's id and nested personalInfo fields, and the row the persistence
stage stores in the users table carries exactly those field values. -/
theorem extract_store_well_formed_payload
    (pulled : Option Json) (payload idv piv : Json) (fn ln em : String)
    (i : Int) (now : Nat)
    (hup : pulled = some payload ∨ pulled = none)
    (hid : payload.getField "id" = some idv)
    (hpi : payload.getField "personalInfo" = some piv)
    (hfn : piv.getField "firstName" = some (Json.str fn))
    (hln : piv.getField "lastName" = some (Json.str ln))
    (hem : piv.getField "email" = some (Json.str em))
    (hparse : strToInt idv.toCsvField = some i) :
    extract_user pulled payload =
      Except.ok { id := idv, firstname := Json.str fn, lastname := Json.str ln,
                  email := Json.str em } ∧
    run_transform_store
      { id := idv, firstname := Json.str fn, lastname := Json.str ln,
        email := Json.str em } now [] =
      Except.ok [{ id := i, firstname := fn, lastname := ln, email := em,
                   created_at := now }] := by
  constructor
  · rcases hup with h | h <;> subst h <;>
      simp [extract_user, hid, hpi, hfn, hln, hem]
  · rw [run_transform_store_eval _ i now [] hparse]
    rfl

/-- C1 witness: Scenario A, the payload with id 7 and Ann Lee, stored as the
row (7, Ann, Lee, ann at x.com). -/
theorem extract_store_well_formed_payload_witness :
    extract_user (some scenarioA_payload) scenarioA_payload =
      Except.ok { id := Json.num 7, firstname := Json.str "Ann",
                  lastname := Json.str "Lee", email := Json.str "ann@x.com" } ∧
    run_transform_store
      { id := Json.num 7, firstname := Json.str "Ann", lastname := Json.str "Lee",
        email := Json.str "ann@x.com" } 0 [] =
      Except.ok [{ id := 7, firstname := "Ann", lastname := "Lee",
                   email := "ann@x.com", created_at := 0 }] :=
  extract_store_well_formed_payload (some scenarioA_payload) scenarioA_payload
    (Json.num 7)
    (Json.obj [("firstName", Json.str "Ann"), ("lastName", Json.str "Lee"),
               ("email", Json.str "ann@x.com")])
    "Ann" "Lee" "ann@x.com" 7 0 (Or.inl rfl) rfl rfl rfl rfl rfl rfl

/-- C2: when the extraction stage's upstream result is absent, the
transformation stage writes the fixed placeholder record as a header row plus
one data row, and the artifact bytes are identical on every such run. -/
theorem process_user_fallback_bytes (p1 p2 : Option CanonicalUser)
    (h1 : p1 = none) (h2 : p2 = none) :
    renderCsv (process_user p1).2 =
      "id,firstname,lastname,email\r\n12345,John,Doe,john.doe@example.com\r\n" ∧
    (process_user p1).1 = (process_user p2).1 ∧
    renderCsv (process_user p1).2 = renderCsv (process_user p2).2 := by
  subst h1; subst h2
  exact ⟨by decide, rfl, rfl⟩

/-- C2 witness: the fallback artifact at the absent-upstream input. -/
theorem process_user_fallback_bytes_witness :
    renderCsv (process_user none).2 =
      "id,firstname,lastname,email\r\n12345,John,Doe,john.doe@example.com\r\n" ∧
    (process_user none).1 = (process_user none).1 ∧
    renderCsv (process_user none).2 = renderCsv (process_user none).2 :=
  process_user_fallback_bytes none none rfl rfl

/-- C3: running the persistence stage a second time over the same artifact is
a no-op — every insert of the re-run hits the `ON CONFLICT (id) DO NOTHING`
branch, so the first write wins — and the table keeps exactly one row per id
(its id column stays duplicate-free). -/
theorem store_user_idempotent (p : String) (fs : FileSystem) (n1 n2 : Nat)
    (t t' : UsersTable)
    (h : (store_user (some p) fs n1 t).2 = Except.ok t')
    (hnd : (tableIds t).Nodup) :
    (store_user (some p) fs n2 t').2 = Except.ok t' ∧ (tableIds t').Nodup := by
  have h2 : (match fs p with
      | none => Except.error "PersistenceError"
      | some artifact => storeArtifact artifact n1 t) = Except.ok t' := h
  cases hfs : fs p with
  | none => rw [hfs] at h2; cases h2
  | some artifact =>
    rw [hfs] at h2
    constructor
    · show (match fs p with
        | none => Except.error "PersistenceError"
        | some artifact => storeArtifact artifact n2 t') = Except.ok t'
      rw [hfs]
      exact storeArtifact_idem artifact n1 n2 t t' h2
    · exact storeArtifact_nodup artifact n1 t t' hnd h2

/-- C3 witness: storing the Scenario A artifact twice yields the same single
row both times. -/
theorem store_user_idempotent_witness :
    (store_user (some csv_file_path)
        (fun q => if q = csv_file_path
          then some [csv_fieldnames, ["7", "Ann", "Lee", "ann@x.com"]] else none)
        2 [{ id := 7, firstname := "Ann", lastname := "Lee", email := "ann@x.com",
             created_at := 1 }]).2 =
      Except.ok [{ id := 7, firstname := "Ann", lastname := "Lee",
                   email := "ann@x.com", created_at := 1 }] ∧
    (tableIds [{ id := 7, firstname := "Ann", lastname := "Lee",
                 email := "ann@x.com", created_at := 1 }]).Nodup :=
  store_user_idempotent csv_file_path
    (fun q => if q = csv_file_path
      then some [csv_fieldnames, ["7", "Ann", "Lee", "ann@x.com"]] else none)
    1 2 [] _ rfl (by decide)

/-- C4: a payload missing a required key (id, personalInfo, or one of its
firstName/lastName/email) makes the extraction stage fail with a KeyError
(the spec's SchemaMismatch); no field-level fallback value is substituted and
the whole-stage fallback, which only guards the upstream pull, cannot absorb
the failure. -/
theorem extract_user_schema_mismatch (j d : Json)
    (h : j.getField "id" = none ∨ j.getField "personalInfo" = none ∨
         ∃ piv, j.getField "personalInfo" = some piv ∧
           (piv.getField "firstName" = none ∨ piv.getField "lastName" = none ∨
            piv.getField "email" = none)) :
    ∃ e, extract_user (some j) d = Except.error e := by
  rcases h with h1 | h1 | ⟨piv, hpiv, hmiss⟩
  · exact ⟨"KeyError: id", by simp [extract_user, h1]⟩
  · cases hid2 : j.getField "id" with
    | none => exact ⟨"KeyError: id", by simp [extract_user, hid2]⟩
    | some idv => exact ⟨"KeyError: personalInfo", by simp [extract_user, hid2, h1]⟩
  · cases hid2 : j.getField "id" with
    | none => exact ⟨"KeyError: id", by simp [extract_user, hid2]⟩
    | some idv =>
      rcases hmiss with h1 | h1 | h1
      · exact ⟨"KeyError: firstName", by simp [extract_user, hid2, hpiv, h1]⟩
      · cases hfn2 : piv.getField "firstName" with
        | none =>
          exact ⟨"KeyError: firstName", by simp [extract_user, hid2, hpiv, hfn2]⟩
        | some fnv =>
          exact ⟨"KeyError: lastName", by simp [extract_user, hid2, hpiv, hfn2, h1]⟩
      · cases hfn2 : piv.getField "firstName" with
        | none =>
          exact ⟨"KeyError: firstName", by simp [extract_user, hid2, hpiv, hfn2]⟩
        | some fnv =>
          cases hln2 : piv.getField "lastName" with
          | none =>
            exact ⟨"KeyError: lastName",
                   by simp [extract_user, hid2, hpiv, hfn2, hln2]⟩
          | some lnv =>
            exact ⟨"KeyError: email",
                   by simp [extract_user, hid2, hpiv, hfn2, hln2, h1]⟩

/-- C4 witness: the empty payload is missing the id key and extraction fails
on it. -/
theorem extract_user_schema_mismatch_witness :
    ∃ e, extract_user (some (Json.obj [])) Json.null = Except.error e :=
  extract_user_schema_mismatch (Json.obj []) Json.null (Or.inl rfl)

/-- C5: a falsy-but-present upstream value is used as the stage input and the
fallback is not substituted (only absence triggers it): extraction's result
does not depend on its direct-fetch fallback, transformation writes the
pulled record rather than the placeholder, and persistence reads the pulled
path — depending only on the artifact found there — without re-creating the
placeholder artifact. -/
theorem falsy_upstream_is_used
    (v d d' : Json) (u : CanonicalUser) (p : String)
    (fs fs' : FileSystem) (now : Nat) (t : UsersTable)
    (hv : v.isFalsy = true) (hu : u.id.isFalsy = true) (hp : p.isEmpty = true)
    (hfs : fs p = fs' p) :
    extract_user (some v) d = extract_user (some v) d' ∧
    (process_user (some u)).2 = [csv_fieldnames, userRow u] ∧
    (store_user (some p) fs now t).2 = (store_user (some p) fs' now t).2 ∧
    (store_user (some p) fs now t).1 = fs := by
  refine ⟨rfl, rfl, ?_, rfl⟩
  simp only [store_user, hfs]

/-- C5 witness: the empty dict, a record with id 0 and the empty path are all
used as-is. -/
theorem falsy_upstream_is_used_witness :
    extract_user (some (Json.obj [])) Json.null =
      extract_user (some (Json.obj [])) (Json.num 1) ∧
    (process_user (some { id := Json.num 0, firstname := Json.str "",
                          lastname := Json.str "", email := Json.str "" })).2 =
      [csv_fieldnames, userRow { id := Json.num 0, firstname := Json.str "",
                                 lastname := Json.str "", email := Json.str "" }] ∧
    (store_user (some "") (fun _ => none) 0 []).2 =
      (store_user (some "")
        (fun q => if q = "" then none else some [csv_fieldnames]) 0 []).2 ∧
    (store_user (some "") (fun _ => none) 0 []).1 = (fun _ => none) :=
  falsy_upstream_is_used (Json.obj []) Json.null (Json.num 1)
    { id := Json.num 0, firstname := Json.str "", lastname := Json.str "",
      email := Json.str "" } "" (fun _ => none)
    (fun q => if q = "" then none else some [csv_fieldnames]) 0 [] rfl rfl rfl rfl

/-- C6: if either aggregate query of the validation stage raises, the stage
re-raises that error unchanged and the run fails; no synthetic report is
substituted for a query failure. -/
theorem validate_data_reraises (countRes : Except String (Option Int))
    (latestRes : Except String (Option DbRow)) (e : String)
    (h : countRes = Except.error e ∨
         (∃ v, countRes = Except.ok v ∧ latestRes = Except.error e)) :
    validate_data countRes latestRes = Except.error e := by
  rcases h with h | ⟨v, hc, hl⟩
  · subst h; rfl
  · subst hc; subst hl; rfl

/-- C6 witness: a failing count query is re-raised. -/
theorem validate_data_reraises_witness :
    validate_data (Except.error "query failed") (Except.ok none) =
      Except.error "query failed" :=
  validate_data_reraises (Except.error "query failed") (Except.ok none)
    "query failed" (Or.inl rfl)

/-- C7: when the readiness probe raises during a tick, the poke returns
not-done with no payload — the exception never propagates out of the tick —
and a poller within the timeout window simply proceeds to the next tick, so
the probe exception alone never fails the stage. -/
theorem probe_exception_continues
    (e : String) (probe : Nat → PokeReturnValue) (t fuel : Nat)
    (hprobe : probe t = is_api_available (Except.error e))
    (ht : t ≤ sensor_timeout) :
    is_api_available (Except.error e) = { is_done := false, xcom_value := none } ∧
    sensorLoopAux probe (fuel + 1) t = sensorLoopAux probe fuel (t + poke_interval) := by
  refine ⟨rfl, ?_⟩
  have hd : (probe t).is_done = false := by rw [hprobe]; rfl
  simp [sensorLoopAux, hd, Nat.not_lt.mpr ht]

/-- C7 witness: a probe that raises at time 0 yields a not-done tick and the
loop moves to the next tick. -/
theorem probe_exception_continues_witness :
    is_api_available (Except.error "boom") =
      { is_done := false, xcom_value := none } ∧
    sensorLoopAux (fun _ => is_api_available (Except.error "boom")) (0 + 1) 0 =
      sensorLoopAux (fun _ => is_api_available (Except.error "boom")) 0
        (0 + poke_interval) :=
  probe_exception_continues "boom" (fun _ => is_api_available (Except.error "boom"))
    0 0 rfl (by decide)

theorem sensorLoopAux_probe_irrel (probe : Nat → PokeReturnValue)
    (hnever : ∀ s, (probe s).is_done = false) (fuel : Nat) :
    ∀ t : Nat, sensorLoopAux probe fuel t =
      sensorLoopAux (fun _ => { is_done := false, xcom_value := none }) fuel t := by
  induction fuel with
  | zero => intro t; rfl
  | succ n ih =>
    intro t
    simp [sensorLoopAux, hnever t]
    split <;> first | rfl | exact ih _

/-- C8: with a probe that never succeeds, the poller — poking every
`poke_interval` seconds rather than busy-looping — fails with
ReadinessTimeout at elapsed time 310 s, which is no earlier than the 300 s
timeout and no later than the timeout plus one poll interval. -/
theorem sensor_never_ready_timeout (probe : Nat → PokeReturnValue)
    (hnever : ∀ s, (probe s).is_done = false) :
    sensorLoop probe = SensorOutcome.readinessTimeout 310 ∧
    sensor_timeout ≤ 310 ∧ 310 ≤ sensor_timeout + poke_interval := by
  refine ⟨?_, by decide, by decide⟩
  unfold sensorLoop
  rw [sensorLoopAux_probe_irrel probe hnever]
  rfl

/-- C8 witness: the never-ready probe. -/
theorem sensor_never_ready_timeout_witness :
    sensorLoop (fun _ => { is_done := false, xcom_value := none }) =
      SensorOutcome.readinessTimeout 310 ∧
    sensor_timeout ≤ 310 ∧ 310 ≤ sensor_timeout + poke_interval :=
  sensor_never_ready_timeout (fun _ => { is_done := false, xcom_value := none })
    (fun _ => rfl)

/-- C9: the placeholder artifact the persistence stage re-creates inline when
its upstream path is absent is identical to the artifact the transformation
stage writes when its own upstream is absent — same path, same header, same
single placeholder data row, same bytes. -/
theorem placeholder_write_paths_agree (fs : FileSystem) (now : Nat) (t : UsersTable) :
    (process_user none).1 = csv_file_path ∧
    (store_user none fs now t).1 csv_file_path = some (process_user none).2 ∧
    renderCsv [csv_fieldnames, userRow store_sample_user] = renderCsv (process_user none).2 :=
  ⟨rfl, rfl, rfl⟩

/-- C10: whenever the validation stage returns a report instead of raising,
the report's status is the string SUCCESS — no code path produces FAILURE —
and on an empty users table it still returns zero total users, a null latest
user and status SUCCESS. -/
theorem validation_status_always_success (countRes : Except String (Option Int))
    (latestRes : Except String (Option DbRow)) (r : ValidationReport)
    (h : validate_data countRes latestRes = Except.ok r) :
    r.validation_status = "SUCCESS" ∧
    validate_data (Except.ok (countQuery [])) (Except.ok (latestQuery [])) =
      Except.ok { total_users := 0, latest_user := none,
                  validation_status := "SUCCESS" } := by
  refine ⟨?_, rfl⟩
  cases countRes with
  | error e => simp [validate_data] at h
  | ok cv =>
    cases latestRes with
    | error e => simp [validate_data] at h
    | ok lv =>
      simp [validate_data] at h
      rw [← h]

/-- C10 witness: the empty-table report. -/
theorem validation_status_always_success_witness :
    ValidationReport.validation_status
        { total_users := 0, latest_user := none, validation_status := "SUCCESS" } =
      "SUCCESS" ∧
    validate_data (Except.ok (countQuery [])) (Except.ok (latestQuery [])) =
      Except.ok { total_users := 0, latest_user := none,
                  validation_status := "SUCCESS" } :=
  validation_status_always_success (Except.ok (countQuery []))
    (Except.ok (latestQuery []))
    { total_users := 0, latest_user := none, validation_status := "SUCCESS" } rfl

end UserProcessing
